import Mathlib

set_option maxRecDepth 8000

namespace DocUploader

/-! Shallow embedding of the fastapi-doc-uploader ingestion core.

Python strings are modelled as lists of Unicode code points (`PyStr`),
byte strings as lists of `Nat` (each in `[0, 256)`).  External
collaborators (libmagic, PyPDF2, MinIO, MongoDB, pika) are modelled as
oracle parameters; everything else is translated from `app/utils.py`,
`app/services.py`, `main.py` and `worker.py`. -/

/-- A Python `str`: a sequence of Unicode code points.  (Python strings may
contain lone surrogates, which Lean `Char` cannot, hence raw `Nat`s.) -/
abbrev PyStr := List Nat

/-- Code points of a Lean string literal. -/
def pyOfString (s : String) : PyStr := s.data.map Char.toNat

/-- Python `str.isspace` / split() whitespace set (Py_UNICODE_ISSPACE). -/
def pyIsSpace (c : Nat) : Bool :=
  (0x09 ≤ c && c ≤ 0x0d) || c == 0x20 || (0x1c ≤ c && c ≤ 0x1f) ||
  c == 0x85 || c == 0xa0 || c == 0x1680 || (0x2000 ≤ c && c ≤ 0x200a) ||
  c == 0x2028 || c == 0x2029 || c == 0x202f || c == 0x205f || c == 0x3000

/-- Python `str.split()` with no arguments: split on runs of whitespace,
dropping empty tokens. -/
def pySplitWs (s : PyStr) : List PyStr :=
  (s.splitOnP (fun c => pyIsSpace c)).filter (fun t => t ≠ [])

/-- Python `str.strip()`: remove leading and trailing whitespace. -/
def pyStrip (s : PyStr) : PyStr :=
  ((s.dropWhile (fun c => pyIsSpace c)).reverse.dropWhile (fun c => pyIsSpace c)).reverse

/-- Continuation byte test for UTF-8 (`0x80 ≤ b ≤ 0xbf`). -/
def isCont (b : Nat) : Bool := 0x80 ≤ b && b ≤ 0xbf

/-- Decode one scalar value of a strict UTF-8 stream: given the first byte and
the remaining bytes, return the code point together with the number of extra
(continuation) bytes consumed.  Mirrors CPython's strict `bytes.decode("utf-8")`
acceptance ranges (no overlongs, no surrogates, max U+10FFFF). -/
def utf8DecodeOne (b0 : Nat) (rest : List Nat) : Option (Nat × Nat) :=
  if b0 < 0x80 then some (b0, 0)
  else if 0xc2 ≤ b0 && b0 ≤ 0xdf then
    match rest with
    | b1 :: _ =>
      if isCont b1 then some ((b0 - 0xc0) * 64 + (b1 - 0x80), 1) else none
    | [] => none
  else if b0 == 0xe0 then
    match rest with
    | b1 :: b2 :: _ =>
      if (0xa0 ≤ b1 && b1 ≤ 0xbf) && isCont b2 then
        some ((b1 - 0x80) * 64 + (b2 - 0x80), 2)
      else none
    | _ => none
  else if (0xe1 ≤ b0 && b0 ≤ 0xec) || b0 == 0xee || b0 == 0xef then
    match rest with
    | b1 :: b2 :: _ =>
      if isCont b1 && isCont b2 then
        some ((b0 - 0xe0) * 4096 + (b1 - 0x80) * 64 + (b2 - 0x80), 2)
      else none
    | _ => none
  else if b0 == 0xed then
    match rest with
    | b1 :: b2 :: _ =>
      if (0x80 ≤ b1 && b1 ≤ 0x9f) && isCont b2 then
        some ((b0 - 0xe0) * 4096 + (b1 - 0x80) * 64 + (b2 - 0x80), 2)
      else none
    | _ => none
  else if b0 == 0xf0 then
    match rest with
    | b1 :: b2 :: b3 :: _ =>
      if (0x90 ≤ b1 && b1 ≤ 0xbf) && isCont b2 && isCont b3 then
        some ((b1 - 0x80) * 4096 + (b2 - 0x80) * 64 + (b3 - 0x80), 3)
      else none
    | _ => none
  else if 0xf1 ≤ b0 && b0 ≤ 0xf3 then
    match rest with
    | b1 :: b2 :: b3 :: _ =>
      if isCont b1 && isCont b2 && isCont b3 then
        some ((b0 - 0xf0) * 262144 + (b1 - 0x80) * 4096 + (b2 - 0x80) * 64 + (b3 - 0x80), 3)
      else none
    | _ => none
  else if b0 == 0xf4 then
    match rest with
    | b1 :: b2 :: b3 :: _ =>
      if (0x80 ≤ b1 && b1 ≤ 0x8f) && isCont b2 && isCont b3 then
        some ((b0 - 0xf0) * 262144 + (b1 - 0x80) * 4096 + (b2 - 0x80) * 64 + (b3 - 0x80), 3)
      else none
    | _ => none
  else none

/-- Fuel-indexed driver of the UTF-8 decoder.  Each step consumes at least
one byte, so with fuel equal to the byte count the middle case never fires. -/
def utf8DecodeGo : Nat → List Nat → Option PyStr
  | _, [] => some []
  | 0, _ :: _ => none
  | fuel + 1, b0 :: rest =>
    match utf8DecodeOne b0 rest with
    | none => none
    | some (cp, k) => (utf8DecodeGo fuel (rest.drop k)).map (fun tl => cp :: tl)

/-- Python `bytes.decode("utf-8")` (strict): `none` models a raised
`UnicodeDecodeError`. -/
def utf8Decode (bs : List Nat) : Option PyStr := utf8DecodeGo bs.length bs

/-- Result dictionary of the per-type extractors, merged into the metadata
record by `create_document` (keys absent from a given extractor's dictionary
stay at the pydantic default `None`). -/
structure ProcessingResults where
  word_count : Option Nat := none
  character_count : Option Nat := none
  page_count : Option Nat := none
  json_keys_count : Option Nat := none
  json_structure_valid : Option Bool := none
  content_preview : Option PyStr := none
deriving Repr, DecidableEq

/-- `app/utils.py: process_text_file`. -/
def process_text_file (file_content : List Nat) : ProcessingResults :=
  match utf8Decode file_content with
  | some text_content =>
    let word_count := (pySplitWs text_content).length
    let character_count := text_content.length
    let preview :=
      if 300 < text_content.length then text_content.take 300 ++ pyOfString "..."
      else text_content
    { word_count := some word_count
      character_count := some character_count
      content_preview := some (pyStrip preview) }
  | none =>
    { word_count := some 0
      character_count := some 0
      content_preview := some (pyOfString "Error: Unable to decode text file") }

/-- A parsed Python JSON value (result of `json.loads`).  Integer literals
become `numI`; float literals (and the NaN/Infinity constants) are kept as
their textual form in `numF` (floating-point formatting is outside this
embedding; no verified claim depends on it). -/
inductive JsonValue where
  | null
  | bool (b : Bool)
  | numI (n : Int)
  | numF (raw : PyStr)
  | str (s : PyStr)
  | arr (items : List JsonValue)
  | obj (entries : List (PyStr × JsonValue))
deriving Repr

/-- Python dict `d[k] = v`: replace in place if the key exists, else append. -/
def objSetItem : List (PyStr × JsonValue) → PyStr → JsonValue → List (PyStr × JsonValue)
  | [], k, v => [(k, v)]
  | (k', v') :: rest, k, v =>
    if k' == k then (k', v) :: rest else (k', v') :: objSetItem rest k v

/-- Python dict `d.get(k)`. -/
def dictGet : List (PyStr × JsonValue) → PyStr → Option JsonValue
  | [], _ => none
  | (k', v') :: rest, k => if k' == k then some v' else dictGet rest k

/-- JSON insignificant whitespace (space, tab, newline, carriage return). -/
def skipJsonWs (s : PyStr) : PyStr :=
  s.dropWhile (fun c => c == 0x20 || c == 0x09 || c == 0x0a || c == 0x0d)

def isDigit (c : Nat) : Bool := 0x30 ≤ c && c ≤ 0x39

def digitsToNat (ds : PyStr) : Nat := ds.foldl (fun acc d => acc * 10 + (d - 0x30)) 0

/-- Value of one hexadecimal digit. -/
def hexVal (c : Nat) : Option Nat :=
  if 0x30 ≤ c && c ≤ 0x39 then some (c - 0x30)
  else if 0x61 ≤ c && c ≤ 0x66 then some (c - 0x57)
  else if 0x41 ≤ c && c ≤ 0x46 then some (c - 0x37)
  else none

/-- Four hex digits of a `\uXXXX` escape. -/
def hex4 : PyStr → Option (Nat × PyStr)
  | a :: b :: c :: d :: r =>
    match hexVal a, hexVal b, hexVal c, hexVal d with
    | some x, some y, some z, some w => some (x * 4096 + y * 256 + z * 16 + w, r)
    | _, _, _, _ => none
  | _ => none

/-- Single-character string escapes of `json/decoder.py` (BACKSLASH table). -/
def escChar (e : Nat) : Option Nat :=
  if e == 0x22 then some 0x22
  else if e == 0x5c then some 0x5c
  else if e == 0x2f then some 0x2f
  else if e == 0x62 then some 0x08
  else if e == 0x66 then some 0x0c
  else if e == 0x6e then some 0x0a
  else if e == 0x72 then some 0x0d
  else if e == 0x74 then some 0x09
  else none

/-- `json/decoder.py: py_scanstring` (strict): the input starts right after the
opening quote; returns the decoded content and the input after the closing
quote.  Raw control characters below 0x20 are rejected; `\uXXXX` escapes
combine surrogate pairs and keep lone surrogates. -/
def parseJString : Nat → PyStr → Option (PyStr × PyStr)
  | 0, _ => none
  | _, [] => none
  | fuel + 1, c :: r =>
    if c == 0x22 then some ([], r)
    else if c == 0x5c then
      match r with
      | [] => none
      | e :: r2 =>
        if e == 0x75 then
          match hex4 r2 with
          | none => none
          | some (u, r3) =>
            if 0xd800 ≤ u && u ≤ 0xdbff then
              match r3 with
              | 0x5c :: 0x75 :: r4 =>
                match hex4 r4 with
                | none => none
                | some (u2, r5) =>
                  if 0xdc00 ≤ u2 && u2 ≤ 0xdfff then
                    (parseJString fuel r5).map
                      (fun p => ((0x10000 + (u - 0xd800) * 1024 + (u2 - 0xdc00)) :: p.1, p.2))
                  else (parseJString fuel r3).map (fun p => (u :: p.1, p.2))
              | _ => (parseJString fuel r3).map (fun p => (u :: p.1, p.2))
            else (parseJString fuel r3).map (fun p => (u :: p.1, p.2))
        else
          match escChar e with
          | some ch => (parseJString fuel r2).map (fun p => (ch :: p.1, p.2))
          | none => none
    else if c < 0x20 then none
    else (parseJString fuel r).map (fun p => (c :: p.1, p.2))

/-- `json/scanner.py: NUMBER_RE` match at the current position, returning the
parsed number (int when no fraction and no exponent, else a float kept as
text) and the unconsumed input. -/
def matchNumber (s : PyStr) : Option (JsonValue × PyStr) :=
  let negs :=
    match s with
    | c :: r => if c == 0x2d then (true, r) else (false, s)
    | [] => (false, s)
  match negs.2 with
  | [] => none
  | c :: r =>
    if !(isDigit c) then none
    else
      let ints := if c == 0x30 then ([c], r) else (c :: r.takeWhile isDigit, r.dropWhile isDigit)
      let fracs :=
        match ints.2 with
        | d :: r2 =>
          if d == 0x2e && !(r2.takeWhile isDigit).isEmpty then
            (r2.takeWhile isDigit, r2.dropWhile isDigit)
          else (([] : PyStr), ints.2)
        | [] => (([] : PyStr), ints.2)
      let exps :=
        match fracs.2 with
        | e :: r2 =>
          if e == 0x65 || e == 0x45 then
            match r2 with
            | sgn :: r3 =>
              if sgn == 0x2b || sgn == 0x2d then
                if !(r3.takeWhile isDigit).isEmpty then
                  (e :: sgn :: r3.takeWhile isDigit, r3.dropWhile isDigit)
                else (([] : PyStr), fracs.2)
              else if !(r2.takeWhile isDigit).isEmpty then
                (e :: r2.takeWhile isDigit, r2.dropWhile isDigit)
              else (([] : PyStr), fracs.2)
            | [] => (([] : PyStr), fracs.2)
          else (([] : PyStr), fracs.2)
        | [] => (([] : PyStr), fracs.2)
      if fracs.1.isEmpty && exps.1.isEmpty then
        let n : Int := Int.ofNat (digitsToNat ints.1)
        some (JsonValue.numI (if negs.1 then -n else n), exps.2)
      else
        let raw := (if negs.1 then [0x2d] else []) ++ ints.1 ++
          (if fracs.1.isEmpty then [] else 0x2e :: fracs.1) ++ exps.1
        some (JsonValue.numF raw, exps.2)

/-- Does `s` start with the literal `lit`? -/
def hasLit (lit : String) (s : PyStr) : Bool :=
  let l := pyOfString lit
  s.take l.length == l

mutual

/-- `json/scanner.py: py_make_scanner`'s `_scan_once`: parse one JSON value at
the current position. -/
def parseValue : Nat → PyStr → Option (JsonValue × PyStr)
  | 0, _ => none
  | fuel + 1, s =>
    match s with
    | [] => none
    | c :: r =>
      if c == 0x22 then
        (parseJString (r.length + 1) r).map (fun p => (JsonValue.str p.1, p.2))
      else if c == 0x7b then parseObj fuel (skipJsonWs r)
      else if c == 0x5b then parseArr fuel (skipJsonWs r)
      else if hasLit "null" s then some (JsonValue.null, s.drop 4)
      else if hasLit "true" s then some (JsonValue.bool true, s.drop 4)
      else if hasLit "false" s then some (JsonValue.bool false, s.drop 5)
      else
        match matchNumber s with
        | some p => some p
        | none =>
          if hasLit "NaN" s then some (JsonValue.numF (pyOfString "nan"), s.drop 3)
          else if hasLit "Infinity" s then some (JsonValue.numF (pyOfString "inf"), s.drop 8)
          else if hasLit "-Infinity" s then some (JsonValue.numF (pyOfString "-inf"), s.drop 9)
          else none

/-- `json/decoder.py: JSONArray`, after the opening bracket and whitespace. -/
def parseArr : Nat → PyStr → Option (JsonValue × PyStr)
  | 0, _ => none
  | fuel + 1, s =>
    match s with
    | 0x5d :: r => some (JsonValue.arr [], r)
    | _ =>
      match parseArrItems fuel s with
      | some (items, rest) => some (JsonValue.arr items, rest)
      | none => none

/-- The element loop of `JSONArray`: one value, then `]` or `,` and more. -/
def parseArrItems : Nat → PyStr → Option (List JsonValue × PyStr)
  | 0, _ => none
  | fuel + 1, s =>
    match parseValue fuel s with
    | none => none
    | some (v, rest) =>
      match skipJsonWs rest with
      | 0x5d :: r => some ([v], r)
      | 0x2c :: r =>
        match parseArrItems fuel (skipJsonWs r) with
        | some (items, rest2) => some (v :: items, rest2)
        | none => none
      | _ => none

/-- `json/decoder.py: JSONObject`, after the opening brace and whitespace:
either an immediate `}` or a double-quoted key starting the member loop. -/
def parseObj : Nat → PyStr → Option (JsonValue × PyStr)
  | 0, _ => none
  | fuel + 1, s =>
    match s with
    | 0x7d :: r => some (JsonValue.obj [], r)
    | 0x22 :: r =>
      match parseObjItems fuel [] r with
      | some (entries, rest) => some (JsonValue.obj entries, rest)
      | none => none
    | _ => none

/-- The member loop of `JSONObject`; the input is positioned right after a
key's opening quote.  Members accumulate with dict-update semantics
(`objSetItem`: duplicate keys keep their first position, last value wins). -/
def parseObjItems : Nat → List (PyStr × JsonValue) → PyStr → Option (List (PyStr × JsonValue) × PyStr)
  | 0, _, _ => none
  | fuel + 1, acc, s =>
    match parseJString (s.length + 1) s with
    | none => none
    | some (key, rest) =>
      match skipJsonWs rest with
      | 0x3a :: r2 =>
        match parseValue fuel (skipJsonWs r2) with
        | none => none
        | some (v, rest2) =>
          let acc2 := objSetItem acc key v
          match skipJsonWs rest2 with
          | 0x7d :: r3 => some (acc2, r3)
          | 0x2c :: r3 =>
            match skipJsonWs r3 with
            | 0x22 :: r4 => parseObjItems fuel acc2 r4
            | _ => none
          | _ => none
      | _ => none

end

/-- Python `json.loads` on a decoded string: parse one value surrounded by
optional whitespace; anything left over is an "Extra data" error.  `none`
models a raised `json.JSONDecodeError`.  The fuel `3 * length + 16` exceeds
the maximum recursion the input can drive (at most three nested calls ever
occur without consuming a character), so exhaustion never fires on any input. -/
def jsonLoads (s : PyStr) : Option JsonValue :=
  match parseValue (3 * s.length + 16) (skipJsonWs s) with
  | some (v, rest) => if skipJsonWs rest = [] then some v else none
  | none => none

/-- Decimal rendering, as Python str() of a nonnegative int. -/
def natToDecimal (n : Nat) : PyStr := pyOfString (toString n)

/-- Python `sep.join(xs)`. -/
def joinWith (sep : PyStr) : List PyStr → PyStr
  | [] => []
  | [x] => x
  | x :: y :: rest => x ++ sep ++ joinWith sep (y :: rest)

/-- Python `str()` of a scalar JSON value, used by the "JSON value:" preview.
Floats render as their source literal here (see `JsonValue.numF`). -/
def pyStrScalar : JsonValue → PyStr
  | JsonValue.null => pyOfString "None"
  | JsonValue.bool true => pyOfString "True"
  | JsonValue.bool false => pyOfString "False"
  | JsonValue.numI n => pyOfString (toString n)
  | JsonValue.numF raw => raw
  | JsonValue.str s => s
  | JsonValue.arr _ => []
  | JsonValue.obj _ => []

/-- An exception escaping a modelled Python function. -/
inductive PyError where
  | unicodeDecodeError
deriving Repr, DecidableEq

/-- `app/utils.py: process_json_file`.  The `try` block decodes the bytes as
UTF-8 and then parses; the sole handler is `except json.JSONDecodeError`, so a
`UnicodeDecodeError` raised by `.decode("utf-8")` escapes uncaught — modelled
by `Except.error`. -/
def process_json_file (file_content : List Nat) : Except PyError ProcessingResults :=
  match utf8Decode file_content with
  | none => Except.error PyError.unicodeDecodeError
  | some decoded =>
    match jsonLoads decoded with
    | none =>
      Except.ok { json_keys_count := none
                  json_structure_valid := some false
                  content_preview := some (pyOfString "Error: Invalid JSON format") }
    | some json_data =>
      match json_data with
      | JsonValue.obj entries =>
        let keys_count := entries.length
        let preview0 := pyOfString "JSON object with " ++ natToDecimal keys_count ++
          pyOfString " keys: " ++ joinWith (pyOfString ", ") ((entries.map Prod.fst).take 5)
        let preview :=
          if 5 < keys_count then
            preview0 ++ pyOfString " and " ++ natToDecimal (keys_count - 5) ++ pyOfString " more..."
          else preview0
        Except.ok { json_keys_count := some keys_count
                    json_structure_valid := some true
                    content_preview := some preview }
      | JsonValue.arr items =>
        let preview := pyOfString "JSON array with " ++ natToDecimal items.length ++
          pyOfString " items"
        let keys_count : Option Nat :=
          match items with
          | JsonValue.obj e :: _ => some (if ¬e.isEmpty then e.length else 0)
          | _ => none
        Except.ok { json_keys_count := keys_count
                    json_structure_valid := some true
                    content_preview := some preview }
      | v =>
        let preview := pyOfString "JSON value: " ++ (pyStrScalar v).take 200 ++ pyOfString "..."
        Except.ok { json_keys_count := none
                    json_structure_valid := some true
                    content_preview := some preview }

/-! SHA-256 (FIPS 180-4), the digest behind `hashlib.sha256(...).hexdigest()`
in `app/utils.py: calculate_file_hash`.  32-bit words are `Nat`s reduced
modulo `2 ^ 32`. -/

def M32 : Nat := 4294967296

def rotr32 (n x : Nat) : Nat := ((x >>> n) ||| (x <<< (32 - n))) % M32

def shaCh (x y z : Nat) : Nat := (x &&& y) ^^^ ((x ^^^ 0xffffffff) &&& z)

def shaMaj (x y z : Nat) : Nat := (x &&& y) ^^^ (x &&& z) ^^^ (y &&& z)

def bigSigma0 (x : Nat) : Nat := rotr32 2 x ^^^ rotr32 13 x ^^^ rotr32 22 x

def bigSigma1 (x : Nat) : Nat := rotr32 6 x ^^^ rotr32 11 x ^^^ rotr32 25 x

def smallSigma0 (x : Nat) : Nat := rotr32 7 x ^^^ rotr32 18 x ^^^ (x >>> 3)

def smallSigma1 (x : Nat) : Nat := rotr32 17 x ^^^ rotr32 19 x ^^^ (x >>> 10)

/-- The 64 SHA-256 round constants, written in decimal. -/
def sha256K : List Nat :=
  [1116352408, 1899447441, 3049323471, 3921009573, 961987163,
   1508970993, 2453635748, 2870763221, 3624381080, 310598401,
   607225278, 1426881987, 1925078388, 2162078206, 2614888103,
   3248222580, 3835390401, 4022224774, 264347078, 604807628,
   770255983, 1249150122, 1555081692, 1996064986, 2554220882,
   2821834349, 2952996808, 3210313671, 3336571891, 3584528711,
   113926993, 338241895, 666307205, 773529912, 1294757372,
   1396182291, 1695183700, 1986661051, 2177026350, 2456956037,
   2730485921, 2820302411, 3259730800, 3345764771, 3516065817,
   3600352804, 4094571909, 275423344, 430227734, 506948616,
   659060556, 883997877, 958139571, 1322822218, 1537002063,
   1747873779, 1955562222, 2024104815, 2227730452, 2361852424,
   2428436474, 2756734187, 3204031479, 3329325298]

/-- The eight SHA-256 initial hash values, written in decimal. -/
def sha256H0 : List Nat :=
  [1779033703, 3144134277, 1013904242, 2773480762,
   1359893119, 2600822924, 528734635, 1541459225]

/-- Big-endian byte rendering of `n` on `k` bytes. -/
def beBytes (k n : Nat) : List Nat :=
  (List.range k).map (fun i => (n >>> (8 * (k - 1 - i))) % 256)

/-- Merkle-Damgard padding: `0x80`, zeros, then the bit length on 8 bytes,
reaching a multiple of 64 bytes. -/
def sha256Pad (msg : List Nat) : List Nat :=
  let z := (55 + 64 - msg.length % 64) % 64
  msg ++ [0x80] ++ List.replicate z 0 ++ beBytes 8 (8 * msg.length)

/-- Fuel-indexed splitter into 64-byte blocks; each step consumes at least
one byte, so with fuel equal to the byte count the middle case never fires. -/
def chunksOf64Go : Nat → List Nat → List (List Nat)
  | _, [] => []
  | 0, _ :: _ => []
  | fuel + 1, b :: rest => ((b :: rest).take 64) :: chunksOf64Go fuel ((b :: rest).drop 64)

def chunksOf64 (l : List Nat) : List (List Nat) := chunksOf64Go l.length l

/-- A 64-byte block as sixteen big-endian 32-bit words. -/
def wordsOfBlock : List Nat → List Nat
  | b0 :: b1 :: b2 :: b3 :: rest =>
    (b0 * 16777216 + b1 * 65536 + b2 * 256 + b3) :: wordsOfBlock rest
  | _ => []

/-- One extension step of the message schedule. -/
def scheduleStep (w : List Nat) : List Nat :=
  let i := w.length
  let g := fun (k : Nat) => w.getD (i - k) 0
  w ++ [(g 16 + smallSigma0 (g 15) + g 7 + smallSigma1 (g 2)) % M32]

/-- The 64-word message schedule from the 16 block words. -/
def schedule (w16 : List Nat) : List Nat :=
  (List.range 48).foldl (fun w _ => scheduleStep w) w16

/-- One round of the compression function on the eight working variables. -/
def compressStep (st : List Nat) (kw : Nat × Nat) : List Nat :=
  match st with
  | [a, b, c, d, e, f, g, h] =>
    let t1 := (h + bigSigma1 e + shaCh e f g + kw.1 + kw.2) % M32
    let t2 := (bigSigma0 a + shaMaj a b c) % M32
    [(t1 + t2) % M32, a, b, c, (d + t1) % M32, e, f, g]
  | other => other

def processBlock (st : List Nat) (block : List Nat) : List Nat :=
  let w := schedule (wordsOfBlock block)
  let st' := (sha256K.zip w).foldl compressStep st
  List.zipWith (fun x y => (x + y) % M32) st st'

/-- The eight 32-bit words of the SHA-256 digest of a byte string. -/
def sha256Words (msg : List Nat) : List Nat :=
  (chunksOf64 (sha256Pad msg)).foldl processBlock sha256H0

def hexDigitChar (n : Nat) : Char :=
  if n < 10 then Char.ofNat (48 + n) else Char.ofNat (87 + n)

/-- Lowercase hex rendering of a 32-bit word on exactly 8 digits. -/
def toHex8 (w : Nat) : List Char :=
  (List.range 8).map (fun i => hexDigitChar ((w >>> (4 * (7 - i))) % 16))

/-- `app/utils.py: calculate_file_hash`:
`hashlib.sha256(file_content).hexdigest()`. -/
def calculate_file_hash (file_content : List Nat) : String :=
  String.mk ((sha256Words file_content).map toHex8).flatten

/-! Filename handling (`pathlib.PurePath.name` and `.suffix`) and the
validation, storage and persistence layer of `app/services.py`. -/

/-- `pathlib.Path(p).name`: the last path component ('.' components drop). -/
def pathName (p : PyStr) : PyStr :=
  (((p.splitOnP (fun c => c == 0x2f)).filter
      (fun comp => !comp.isEmpty && comp != [0x2e]))).getLast?.getD []

/-- `pathlib.Path(p).suffix`: the extension of the final component, empty when
the name has no dot, starts with its only dot, or ends with its last dot. -/
def pathSuffix (p : PyStr) : PyStr :=
  let name := pathName p
  match name.reverse.findIdx? (fun c => c == 0x2e) with
  | none => []
  | some r =>
    let i := name.length - 1 - r
    if 0 < i ∧ i < name.length - 1 then name.drop i else []

/-- Python `str.lower()`, on the ASCII range (extensions and MIME types in
this system are ASCII). -/
def pyLower (s : PyStr) : PyStr :=
  s.map (fun c => if 0x41 ≤ c ∧ c ≤ 0x5a then c + 32 else c)

/-- Result of `PyPDF2.PdfReader` on the uploaded bytes: the page count and the
concatenated `extract_text()` of the first three pages.  PyPDF2 is an external
library, so this is an oracle parameter; `Except.error msg` models any
exception it raises, with `msg` the exception's string. -/
structure PdfExtract where
  page_count : Nat
  first3_text : PyStr
deriving Repr, DecidableEq

/-- `app/utils.py: process_pdf_file`. -/
def process_pdf_file (pdfO : Except PyStr PdfExtract) : ProcessingResults :=
  match pdfO with
  | Except.ok pdf =>
    let full_text := pdf.first3_text
    let preview0 :=
      if 300 < full_text.length then full_text.take 300 ++ pyOfString "..." else full_text
    let stripped := pyStrip preview0
    let preview := if stripped.isEmpty then pyOfString "No readable text found" else stripped
    { page_count := some pdf.page_count
      word_count := some (pySplitWs full_text).length
      character_count := some full_text.length
      content_preview := some preview }
  | Except.error msg =>
    { page_count := some 0
      word_count := some 0
      character_count := some 0
      content_preview := some (pyOfString "Error processing PDF: " ++ msg) }

/-- `app/utils.py: process_file_content`: dispatch on the lower-cased
extension.  The result is `Except` because the `.json` branch can raise. -/
def process_file_content (pdfO : Except PyStr PdfExtract) (filename : PyStr)
    (file_content : List Nat) : Except PyError ProcessingResults :=
  let file_ext := pyLower (pathSuffix filename)
  if file_ext = pyOfString ".pdf" then Except.ok (process_pdf_file pdfO)
  else if file_ext = pyOfString ".txt" then Except.ok (process_text_file file_content)
  else if file_ext = pyOfString ".json" then process_json_file file_content
  else Except.ok { content_preview := some (pyOfString "Unsupported file type") }

/-- The configuration fields of `app/config.py: Settings` that the verified
operations read.  `ALLOWED_EXTENSIONS` and `ALLOWED_MIME_TYPES` are Python
sets; they are modelled as lists with membership, their order standing in for
the set's unspecified iteration order. -/
structure Config where
  MAX_FILE_SIZE : Nat
  ALLOWED_EXTENSIONS : List PyStr
  ALLOWED_MIME_TYPES : List PyStr
  UPLOAD_DIR : PyStr
  MINIO_BUCKET : PyStr

/-- The extension-rule rejection message of `validate_file_type`. -/
def extNotAllowedMsg (cfg : Config) (file_ext : PyStr) : PyStr :=
  pyOfString "File extension " ++ file_ext ++ pyOfString " not allowed. Allowed: " ++
    joinWith (pyOfString ", ") cfg.ALLOWED_EXTENSIONS

/-- The MIME-rule rejection message of `validate_file_type`. -/
def mimeNotAllowedMsg (mime_type : PyStr) : PyStr :=
  pyOfString "MIME type " ++ mime_type ++ pyOfString " not allowed"

/-- `app/utils.py: validate_file_type`. -/
def validate_file_type (cfg : Config) (filename mime_type : PyStr) : Bool × PyStr :=
  let file_ext := pyLower (pathSuffix filename)
  if file_ext ∈ cfg.ALLOWED_EXTENSIONS then
    if mime_type ∈ cfg.ALLOWED_MIME_TYPES then (true, [])
    else (false, mimeNotAllowedMsg mime_type)
  else (false, extNotAllowedMsg cfg file_ext)

/-- `app/utils.py: detect_mime_type`: libmagic's sniff is the oracle
`magicO`; on its failure the declared type, and failing that (empty /
missing), `application/octet-stream`. -/
def detect_mime_type (magicO : Option PyStr) (fallback : PyStr) : PyStr :=
  match magicO with
  | some m => m
  | none => if fallback.isEmpty then pyOfString "application/octet-stream" else fallback

/-- `app/utils.py: save_file`: the local fallback path
`os.path.join(UPLOAD_DIR, f"{document_id}_{filename}")`; the disk write
itself is recorded as an effect by the caller. -/
def save_file (cfg : Config) (document_id filename : PyStr) : PyStr :=
  cfg.UPLOAD_DIR ++ [0x2f] ++ document_id ++ [0x5f] ++ filename

/-- `app/models.py: DocumentMetadata` (the Mongo `_id` is repository-internal
and omitted; `datetime` is an abstract tick). -/
structure DocumentMetadata where
  document_id : PyStr
  filename : PyStr
  original_filename : PyStr
  file_size : Nat
  file_type : PyStr
  mime_type : PyStr
  upload_timestamp : Nat
  file_hash : String
  file_path : PyStr
  storage_bucket : Option PyStr
  storage_key : Option PyStr
  word_count : Option Nat
  character_count : Option Nat
  page_count : Option Nat
  json_keys_count : Option Nat
  json_structure_valid : Option Bool
  content_preview : Option PyStr
deriving Repr, DecidableEq

/-- `fastapi.HTTPException`. -/
structure HTTPError where
  status_code : Nat
  detail : PyStr
deriving Repr, DecidableEq

/-- Side effects of the ingestion path, in program order. -/
inductive Effect where
  | saveFile (path : PyStr) (content : List Nat)
  | putObject (object_name : PyStr) (content : List Nat) (mime : PyStr)
  | dbInsert (doc : DocumentMetadata)
deriving Repr, DecidableEq

/-- How a modelled request handler ends: normally, with a raised
`HTTPException`, or with an uncaught Python exception. -/
inductive PyOutcome (α : Type) where
  | ok (a : α)
  | httpError (e : HTTPError)
  | pyError (e : PyError)
deriving Repr, DecidableEq

/-- `app/services.py: DocumentService.create_document`.  Oracles: `magicO`
(libmagic sniff), `pdfO` (PyPDF2), `putOk` (whether the MinIO
`put_object` succeeds — on `false` the `except Exception` arm leaves both
storage coordinates unset), `document_id` (the generated UUID4) and `now`
(the `datetime.utcnow()` tick).  Returns the outcome and the effect trace. -/
def create_document (cfg : Config) (magicO : Option PyStr)
    (pdfO : Except PyStr PdfExtract) (putOk : Bool) (document_id : PyStr) (now : Nat)
    (file_content : List Nat) (filename : PyStr) (content_type : PyStr) :
    PyOutcome DocumentMetadata × List Effect :=
  if cfg.MAX_FILE_SIZE < file_content.length then
    (PyOutcome.httpError
      { status_code := 413
        detail := pyOfString "File size exceeds maximum allowed size of " ++
          natToDecimal (cfg.MAX_FILE_SIZE / 1048576) ++ pyOfString "MB" }, [])
  else
    let mime_type := detect_mime_type magicO content_type
    let v := validate_file_type cfg filename mime_type
    if !v.1 then
      (PyOutcome.httpError { status_code := 400, detail := v.2 }, [])
    else
      let file_path := save_file cfg document_id filename
      match process_file_content pdfO filename file_content with
      | Except.error e =>
        -- the exception raised inside extraction escapes create_document;
        -- the local write has already happened
        (PyOutcome.pyError e, [Effect.saveFile file_path file_content])
      | Except.ok pr =>
        let object_name := document_id ++ [0x2f] ++ filename
        let stor : Option PyStr × Option PyStr × List Effect :=
          if putOk then
            (some cfg.MINIO_BUCKET, some object_name,
             [Effect.putObject object_name file_content mime_type])
          else (none, none, [])
        let document : DocumentMetadata :=
          { document_id := document_id
            filename := filename
            original_filename := filename
            file_size := file_content.length
            file_type := pyLower (pathSuffix filename)
            mime_type := mime_type
            upload_timestamp := now
            file_hash := calculate_file_hash file_content
            file_path := file_path
            storage_bucket := stor.1
            storage_key := stor.2.1
            word_count := pr.word_count
            character_count := pr.character_count
            page_count := pr.page_count
            json_keys_count := pr.json_keys_count
            json_structure_valid := pr.json_structure_valid
            content_preview := pr.content_preview }
        (PyOutcome.ok document,
         [Effect.saveFile file_path file_content] ++ stor.2.2 ++ [Effect.dbInsert document])

/-- `app/services.py: DocumentService.get_document`:
`db.documents.find_one({"document_id": document_id})`, the repository being a
list of records in insertion order. -/
def get_document (db : List DocumentMetadata) (document_id : PyStr) :
    Option DocumentMetadata :=
  db.find? (fun d => d.document_id == document_id)

/-- Mongo's descending sort on `upload_timestamp` (a stable sort). -/
def sortByUploadDesc (db : List DocumentMetadata) : List DocumentMetadata :=
  db.mergeSort (fun a b => decide (b.upload_timestamp ≤ a.upload_timestamp))

/-- `app/services.py: DocumentService.list_documents`: the cursor applies the
sort server-side, then `skip((page - 1) * per_page)` and `limit(per_page)`;
returns the page and the total count. -/
def list_documents (db : List DocumentMetadata) (page per_page : Nat) :
    List DocumentMetadata × Nat :=
  let skip := (page - 1) * per_page
  (((sortByUploadDesc db).drop skip).take per_page, db.length)

/-- `main.py: list_documents` route: `total_pages = math.ceil(total / per_page)`
(exact on integers for `per_page > 0`). -/
def total_pages (total per_page : Nat) : Nat := (total + per_page - 1) / per_page

/-- Mongo `delete_one`: remove the first matching record, returning the new
repository and `deleted_count`. -/
def delete_one (db : List DocumentMetadata) (document_id : PyStr) :
    List DocumentMetadata × Nat :=
  match db with
  | [] => ([], 0)
  | d :: rest =>
    if d.document_id == document_id then (rest, 1)
    else
      let p := delete_one rest document_id
      (d :: p.1, p.2)

/-- Best-effort storage cleanups attempted by `delete_document`. -/
inductive DeleteEffect where
  | removeObject (key : PyStr)
  | removeLocalFile (path : PyStr)
deriving Repr, DecidableEq

/-- `app/services.py: DocumentService.delete_document`.  Oracles: `removeOk`
(the MinIO `remove_object` call completes rather than raising), `fileExists`
(`os.path.exists(file_path)`), `localOk` (`os.remove` completes); both
cleanup steps swallow their exceptions.  Returns
`(deleted, repository, cleanup effects)`. -/
def delete_document (db : List DocumentMetadata) (removeOk fileExists localOk : Bool)
    (document_id : PyStr) : Bool × List DocumentMetadata × List DeleteEffect :=
  match get_document db document_id with
  | none => (false, db, [])
  | some document =>
    let effs1 : List DeleteEffect :=
      match document.storage_key with
      | some key => if removeOk then [DeleteEffect.removeObject key] else []
      | none => []
    let effs2 : List DeleteEffect :=
      if fileExists && localOk then [DeleteEffect.removeLocalFile document.file_path] else []
    let p := delete_one db document_id
    (decide (0 < p.2), p.1, effs1 ++ effs2)

/-! The worker's consume callback (`worker.py`). -/

/-- Acknowledgment operations issued on the pika channel. -/
inductive ChannelOp where
  | basic_ack (delivery_tag : Nat)
  | basic_nack (delivery_tag : Nat) (requeue : Bool)
deriving Repr, DecidableEq

/-- `worker.py: callback`: decode the body as UTF-8, parse the JSON envelope,
read `type` and `payload` and simulate processing, then ack; any exception in
the `try` block reaches `except Exception`, which nacks with
`requeue=False`.  `processingFails` is the oracle for the simulated
processing work failing.  Reading `.get` on a non-dict message or logging
`payload.get("document_id")` on a non-dict payload raises `AttributeError`,
hence those paths nack as well. -/
def callback (processingFails : Bool) (delivery_tag : Nat) (body : List Nat) :
    List ChannelOp :=
  match utf8Decode body with
  | none => [ChannelOp.basic_nack delivery_tag false]
  | some text =>
    match jsonLoads text with
    | some (JsonValue.obj entries) =>
      let payload := (dictGet entries (pyOfString "payload")).getD (JsonValue.obj [])
      match payload with
      | JsonValue.obj _ =>
        if processingFails then [ChannelOp.basic_nack delivery_tag false]
        else [ChannelOp.basic_ack delivery_tag]
      | _ => [ChannelOp.basic_nack delivery_tag false]
    | _ => [ChannelOp.basic_nack delivery_tag false]

/-- Is a character a lowercase hexadecimal digit? -/
def isHexLowerChar (ch : Char) : Bool :=
  (48 ≤ ch.toNat && ch.toNat ≤ 57) || (97 ≤ ch.toNat && ch.toNat ≤ 102)

/-- A placeholder repository record for concrete instantiations. -/
def sampleDoc : DocumentMetadata :=
  { document_id := pyOfString "id1"
    filename := pyOfString "a.txt"
    original_filename := pyOfString "a.txt"
    file_size := 2
    file_type := pyOfString ".txt"
    mime_type := pyOfString "text/plain"
    upload_timestamp := 0
    file_hash := ""
    file_path := pyOfString "uploads/id1_a.txt"
    storage_bucket := none
    storage_key := none
    word_count := none
    character_count := none
    page_count := none
    json_keys_count := none
    json_structure_valid := none
    content_preview := none }

/-- The default configuration of `app/config.py` (environment unset). -/
def defaultConfig : Config :=
  { MAX_FILE_SIZE := 10485760
    ALLOWED_EXTENSIONS := [pyOfString ".pdf", pyOfString ".txt", pyOfString ".json"]
    ALLOWED_MIME_TYPES :=
      [pyOfString "application/pdf", pyOfString "text/plain",
       pyOfString "application/json", pyOfString "text/json"]
    UPLOAD_DIR := pyOfString "uploads"
    MINIO_BUCKET := pyOfString "documents" }

/-! Theorems. -/

theorem compressStep_length (st : List Nat) (kw : Nat × Nat) :
    (compressStep st kw).length = st.length := by
  unfold compressStep
  split <;> simp_all

theorem foldl_compressStep_length (l : List (Nat × Nat)) (st : List Nat) :
    (l.foldl compressStep st).length = st.length := by
  induction l generalizing st with
  | nil => rfl
  | cons kw l ih => rw [List.foldl_cons, ih, compressStep_length]

theorem processBlock_length (st block : List Nat) :
    (processBlock st block).length = st.length := by
  unfold processBlock
  rw [List.length_zipWith, foldl_compressStep_length, Nat.min_self]

theorem sha256Words_length (msg : List Nat) : (sha256Words msg).length = 8 := by
  unfold sha256Words
  have h : ∀ (bs : List (List Nat)) (st : List Nat),
      (bs.foldl processBlock st).length = st.length := by
    intro bs
    induction bs with
    | nil => intro st; rfl
    | cons b bs ih => intro st; rw [List.foldl_cons, ih, processBlock_length]
  rw [h]
  rfl

theorem toHex8_length (w : Nat) : (toHex8 w).length = 8 := by
  simp [toHex8]

theorem sum_map_const8 (l : List Nat) : (l.map (fun _ => (8 : Nat))).sum = 8 * l.length := by
  induction l with
  | nil => rfl
  | cons x l ih => simp [ih, Nat.mul_succ]; omega

theorem calculate_file_hash_length (c : List Nat) : (calculate_file_hash c).length = 64 := by
  show ((sha256Words c).map toHex8).flatten.length = 64
  rw [List.length_flatten, List.map_map]
  have h : (List.length ∘ toHex8) = fun _ => (8 : Nat) := by
    funext w; exact toHex8_length w
  rw [h, sum_map_const8, sha256Words_length]

theorem hexDigitChar_isHex (n : Nat) (h : n < 16) : isHexLowerChar (hexDigitChar n) = true := by
  interval_cases n <;> decide

theorem mem_calculate_file_hash_hex (c : List Nat) :
    ∀ ch ∈ (calculate_file_hash c).data, isHexLowerChar ch = true := by
  intro ch hch
  have hm : ch ∈ ((sha256Words c).map toHex8).flatten := hch
  rw [List.mem_flatten] at hm
  obtain ⟨l, hl, hchl⟩ := hm
  rw [List.mem_map] at hl
  obtain ⟨w, _, rfl⟩ := hl
  rw [toHex8] at hchl
  rw [List.mem_map] at hchl
  obtain ⟨i, _, rfl⟩ := hchl
  exact hexDigitChar_isHex _ (Nat.mod_lt _ (by norm_num))

/-- C9: `calculate_file_hash` is a deterministic pure function of the content
bytes alone (identical bytes give identical digests; no other input exists),
and every digest is a fixed-length, 64-character lowercase-hex string. -/
theorem C9_calculate_file_hash_deterministic_hex (c1 c2 : List Nat) :
    (c1 = c2 → calculate_file_hash c1 = calculate_file_hash c2) ∧
    (calculate_file_hash c1).length = 64 ∧
    ∀ ch ∈ (calculate_file_hash c1).data, isHexLowerChar ch = true :=
  ⟨fun h => by rw [h], calculate_file_hash_length c1, mem_calculate_file_hash_hex c1⟩

/-- Witness for C9 at the concrete content "hello world". -/
theorem C9_calculate_file_hash_deterministic_hex_witness :
    (pyOfString "hello world" = pyOfString "hello world" →
      calculate_file_hash (pyOfString "hello world") =
        calculate_file_hash (pyOfString "hello world")) ∧
    (calculate_file_hash (pyOfString "hello world")).length = 64 ∧
    ∀ ch ∈ (calculate_file_hash (pyOfString "hello world")).data, isHexLowerChar ch = true :=
  C9_calculate_file_hash_deterministic_hex (pyOfString "hello world") (pyOfString "hello world")

/-- C1: on bytes that are not decodable as UTF-8 the JSON extractor does NOT
absorb the failure: `bytes.decode("utf-8")` raises `UnicodeDecodeError`,
which the sole handler `except json.JSONDecodeError` does not catch, so the
exception escapes the extractor's boundary instead of yielding the
`json_structure_valid = false` dictionary (code bug relative to the claim;
shown here at the failing input `b"\xff"` with filename `data.json`). -/
theorem C1_json_extractor_raises_on_undecodable_bytes :
    process_file_content (Except.error []) (pyOfString "data.json") [0xff] =
      Except.error PyError.unicodeDecodeError ∧
    process_json_file [0xff] = Except.error PyError.unicodeDecodeError :=
  ⟨rfl, rfl⟩

theorem process_file_content_txt (pdfO : Except PyStr PdfExtract)
    (filename content : List Nat)
    (hext : pyLower (pathSuffix filename) = pyOfString ".txt") :
    process_file_content pdfO filename content = Except.ok (process_text_file content) := by
  unfold process_file_content
  rw [hext]
  rfl

/-- C7: on a filename with (lower-cased) extension ".txt", the extractor
decodes the bytes as UTF-8 and reports the whitespace-split token count, the
code-point count, and the first-300-characters preview (ellipsis appended
when longer than 300, then trimmed); undecodable bytes yield zeroed counts
and the decode-error preview without raising; content "hello world" yields
word_count 2 and character_count 11. -/
theorem C7_text_extractor (pdfO : Except PyStr PdfExtract)
    (filename content badContent : List Nat) (text : PyStr)
    (hext : pyLower (pathSuffix filename) = pyOfString ".txt")
    (hdec : utf8Decode content = some text)
    (hbad : utf8Decode badContent = none) :
    process_file_content pdfO filename content = Except.ok
      { word_count := some (pySplitWs text).length
        character_count := some text.length
        content_preview := some (pyStrip
          (if 300 < text.length then text.take 300 ++ pyOfString "..." else text)) } ∧
    process_file_content pdfO filename badContent = Except.ok
      { word_count := some 0
        character_count := some 0
        content_preview := some (pyOfString "Error: Unable to decode text file") } ∧
    process_file_content pdfO filename (pyOfString "hello world") = Except.ok
      { word_count := some 2
        character_count := some 11
        content_preview := some (pyOfString "hello world") } := by
  rw [process_file_content_txt pdfO filename content hext,
      process_file_content_txt pdfO filename badContent hext,
      process_file_content_txt pdfO filename (pyOfString "hello world") hext]
  refine ⟨?_, ?_, rfl⟩
  · unfold process_text_file
    rw [hdec]
  · unfold process_text_file
    rw [hbad]

/-- Witness for C7 at filename "a.txt", content "hello world" and the
undecodable byte 0xff. -/
theorem C7_text_extractor_witness :
    utf8Decode (pyOfString "hello world") = some (pyOfString "hello world") ∧
    utf8Decode [255] = none ∧
    process_file_content (Except.error []) (pyOfString "a.txt") (pyOfString "hello world") =
      Except.ok
        { word_count := some 2
          character_count := some 11
          content_preview := some (pyOfString "hello world") } :=
  ⟨rfl, rfl,
    (C7_text_extractor (Except.error []) (pyOfString "a.txt") (pyOfString "hello world")
      [255] (pyOfString "hello world") rfl rfl rfl).2.2⟩

/-- C10: when the JSON root parses to an array, the extractor reports a valid
structure and an item-count preview, and `json_keys_count` is the key count
of the first element when that element is a (possibly empty) object — in
particular 0 for an empty object — and null when the array is empty or its
first element is not an object. -/
theorem C10_json_array_extraction (content : List Nat) (text : PyStr)
    (items : List JsonValue)
    (hdec : utf8Decode content = some text)
    (hparse : jsonLoads text = some (JsonValue.arr items)) :
    ∃ r, process_json_file content = Except.ok r ∧
      r.json_structure_valid = some true ∧
      r.content_preview = some
        (pyOfString "JSON array with " ++ natToDecimal items.length ++ pyOfString " items") ∧
      (items = [] → r.json_keys_count = none) ∧
      (∀ e rest, items = JsonValue.obj e :: rest → r.json_keys_count = some e.length) ∧
      (∀ v rest, items = v :: rest → (∀ e, v ≠ JsonValue.obj e) →
        r.json_keys_count = none) := by
  simp only [process_json_file, hdec, hparse]
  refine ⟨_, rfl, rfl, rfl, ?_, ?_, ?_⟩
  · rintro rfl
    rfl
  · rintro e rest rfl
    cases e <;> simp
  · rintro v rest rfl hv
    cases v <;> simp_all

/-- Witness for C10 at the concrete array input `[{"a": 1}]`. -/
theorem C10_json_array_extraction_witness :
    utf8Decode (pyOfString "[\x7b\"a\": 1\x7d]") = some (pyOfString "[\x7b\"a\": 1\x7d]") ∧
    jsonLoads (pyOfString "[\x7b\"a\": 1\x7d]") =
      some (JsonValue.arr [JsonValue.obj [(pyOfString "a", JsonValue.numI 1)]]) ∧
    ∃ r, process_json_file (pyOfString "[\x7b\"a\": 1\x7d]") = Except.ok r ∧
      r.json_keys_count = some 1 ∧ r.json_structure_valid = some true := by
  obtain ⟨r, h1, h2, h3, h4, h5, h6⟩ :=
    C10_json_array_extraction (pyOfString "[\x7b\"a\": 1\x7d]") (pyOfString "[\x7b\"a\": 1\x7d]")
      [JsonValue.obj [(pyOfString "a", JsonValue.numI 1)]] rfl rfl
  exact ⟨rfl, rfl, r, h1, h5 _ _ rfl, h2⟩

/-- C8: for every delivered message, the worker callback issues exactly one
channel operation — an ack on successful decode and processing, else a nack
with requeue disabled — and never lets the failure escape: decode failures,
parse failures, non-object envelopes/payloads and processing failures all
nack without requeueing. -/
theorem C8_callback_ack_or_nack_no_requeue (pf : Bool) (tag : Nat) (body : List Nat) :
    (callback pf tag body = [ChannelOp.basic_ack tag] ∨
     callback pf tag body = [ChannelOp.basic_nack tag false]) ∧
    (utf8Decode body = none → callback pf tag body = [ChannelOp.basic_nack tag false]) ∧
    (∀ text, utf8Decode body = some text → jsonLoads text = none →
      callback pf tag body = [ChannelOp.basic_nack tag false]) ∧
    (pf = true → callback pf tag body = [ChannelOp.basic_nack tag false]) ∧
    (∀ text entries pentries, utf8Decode body = some text →
      jsonLoads text = some (JsonValue.obj entries) →
      (dictGet entries (pyOfString "payload")).getD (JsonValue.obj []) =
        JsonValue.obj pentries →
      pf = false → callback pf tag body = [ChannelOp.basic_ack tag]) := by
  refine ⟨?_, ?_, ?_, ?_, ?_⟩
  · unfold callback
    dsimp only
    repeat' split
    all_goals first | exact Or.inl rfl | exact Or.inr rfl
  · intro h
    simp [callback, h]
  · intro text h1 h2
    simp [callback, h1, h2]
  · rintro rfl
    unfold callback
    dsimp only
    repeat' split
    all_goals simp_all
  · intro text entries pentries h1 h2 h3 h4
    simp only [callback, h1, h2, h3, h4]
    rfl

/-- Witness for C8: an ack on the well-formed envelope and tag 7. -/
theorem C8_callback_ack_or_nack_no_requeue_witness :
    callback false 7 (pyOfString "\x7b\x7d") = [ChannelOp.basic_ack 7] :=
  (C8_callback_ack_or_nack_no_requeue false 7 (pyOfString "\x7b\x7d")).2.2.2.2
    (pyOfString "\x7b\x7d") [] [] rfl rfl rfl rfl

/-- C3: an upload whose content length exceeds the configured maximum is
rejected with HTTP 413 and an empty effect trace: no metadata insert and no
storage write (local disk or object store) occurs — the size check precedes
every side effect. -/
theorem C3_oversize_rejected (cfg : Config) (magicO : Option PyStr)
    (pdfO : Except PyStr PdfExtract) (putOk : Bool) (document_id : PyStr) (now : Nat)
    (file_content : List Nat) (filename content_type : PyStr)
    (h : cfg.MAX_FILE_SIZE < file_content.length) :
    (create_document cfg magicO pdfO putOk document_id now
        file_content filename content_type).2 = [] ∧
    ∃ e, (create_document cfg magicO pdfO putOk document_id now
        file_content filename content_type).1 = PyOutcome.httpError e ∧
      e.status_code = 413 := by
  unfold create_document
  rw [if_pos h]
  exact ⟨rfl, _, rfl, rfl⟩

/-- Witness for C3 with a 1-byte limit and 2-byte content. -/
theorem C3_oversize_rejected_witness :
    (create_document { defaultConfig with MAX_FILE_SIZE := 1 } none (Except.error [])
        true (pyOfString "id1") 0 [0, 0] (pyOfString "a.txt") (pyOfString "text/plain")).2 = [] ∧
    ∃ e, (create_document { defaultConfig with MAX_FILE_SIZE := 1 } none (Except.error [])
        true (pyOfString "id1") 0 [0, 0] (pyOfString "a.txt") (pyOfString "text/plain")).1 =
      PyOutcome.httpError e ∧ e.status_code = 413 :=
  C3_oversize_rejected { defaultConfig with MAX_FILE_SIZE := 1 } none (Except.error [])
    true (pyOfString "id1") 0 [0, 0] (pyOfString "a.txt") (pyOfString "text/plain") (by decide)

/-- C4: a validation failure — lower-cased extension outside the allow-list,
or detected MIME type outside the allow-list — rejects with HTTP 400 whose
detail is the extension message exactly when the extension rule fired and the
MIME message when the extension passed; the two message families never
coincide, and the effect trace is empty (in particular no record insert). -/
theorem C4_validation_rejected (cfg : Config) (magicO : Option PyStr)
    (pdfO : Except PyStr PdfExtract) (putOk : Bool) (document_id : PyStr) (now : Nat)
    (file_content : List Nat) (filename content_type : PyStr)
    (hsz : file_content.length ≤ cfg.MAX_FILE_SIZE)
    (hbad : (validate_file_type cfg filename (detect_mime_type magicO content_type)).1 = false) :
    (create_document cfg magicO pdfO putOk document_id now
        file_content filename content_type).2 = [] ∧
    (create_document cfg magicO pdfO putOk document_id now
        file_content filename content_type).1 = PyOutcome.httpError
      { status_code := 400
        detail := (validate_file_type cfg filename (detect_mime_type magicO content_type)).2 } ∧
    (pyLower (pathSuffix filename) ∉ cfg.ALLOWED_EXTENSIONS →
      (validate_file_type cfg filename (detect_mime_type magicO content_type)).2 =
        extNotAllowedMsg cfg (pyLower (pathSuffix filename))) ∧
    (pyLower (pathSuffix filename) ∈ cfg.ALLOWED_EXTENSIONS →
      detect_mime_type magicO content_type ∉ cfg.ALLOWED_MIME_TYPES ∧
      (validate_file_type cfg filename (detect_mime_type magicO content_type)).2 =
        mimeNotAllowedMsg (detect_mime_type magicO content_type)) ∧
    (∀ x m, extNotAllowedMsg cfg x ≠ mimeNotAllowedMsg m) := by
  refine ⟨?_, ?_, ?_, ?_, ?_⟩
  · simp only [create_document, if_neg (Nat.not_lt.mpr hsz), hbad]
    rfl
  · simp only [create_document, if_neg (Nat.not_lt.mpr hsz), hbad]
    rfl
  · intro hx
    unfold validate_file_type
    rw [if_neg hx]
  · intro hin
    by_cases hm : detect_mime_type magicO content_type ∈ cfg.ALLOWED_MIME_TYPES
    · exfalso
      unfold validate_file_type at hbad
      rw [if_pos hin, if_pos hm] at hbad
      exact absurd hbad (by simp)
    · refine ⟨hm, ?_⟩
      unfold validate_file_type
      rw [if_pos hin, if_neg hm]
  · intro x m hEq
    have h1 : (extNotAllowedMsg cfg x).head? = some 70 := rfl
    have h2 : (mimeNotAllowedMsg m).head? = some 77 := rfl
    rw [hEq, h2] at h1
    exact absurd h1 (by simp)

/-- Witness for C4 at a disallowed extension ".exe". -/
theorem C4_validation_rejected_witness :
    (validate_file_type defaultConfig (pyOfString "a.exe") (pyOfString "text/plain")).1 = false ∧
    (create_document defaultConfig (some (pyOfString "text/plain")) (Except.error [])
        true (pyOfString "id1") 0 [104, 105] (pyOfString "a.exe") (pyOfString "text/plain")).2 = [] ∧
    (validate_file_type defaultConfig (pyOfString "a.exe")
        (detect_mime_type (some (pyOfString "text/plain")) (pyOfString "text/plain"))).2 =
      extNotAllowedMsg defaultConfig (pyOfString ".exe") := by
  have h := C4_validation_rejected defaultConfig (some (pyOfString "text/plain"))
    (Except.error []) true (pyOfString "id1") 0 [104, 105] (pyOfString "a.exe")
    (pyOfString "text/plain") (by decide) rfl
  exact ⟨rfl, h.1, h.2.2.1 (by decide)⟩

/-- C2: on the successful path the created record always carries the local
fallback path, storage coordinates are both set — bucket to the configured
bucket and key to "document_id/filename" — exactly when the object-store
write succeeds and both absent when it throws, never one without the other,
and a put failure still returns a created record (the request does not
fail). -/
theorem C2_storage_coordinates (cfg : Config) (magicO : Option PyStr)
    (pdfO : Except PyStr PdfExtract) (putOk : Bool) (document_id : PyStr) (now : Nat)
    (file_content : List Nat) (filename content_type : PyStr) (pr : ProcessingResults)
    (hsz : file_content.length ≤ cfg.MAX_FILE_SIZE)
    (hval : (validate_file_type cfg filename (detect_mime_type magicO content_type)).1 = true)
    (hproc : process_file_content pdfO filename file_content = Except.ok pr) :
    ∃ doc, (create_document cfg magicO pdfO putOk document_id now
        file_content filename content_type).1 = PyOutcome.ok doc ∧
      doc.file_path = save_file cfg document_id filename ∧
      ((doc.storage_bucket = some cfg.MINIO_BUCKET ∧
        doc.storage_key = some (document_id ++ [0x2f] ++ filename)) ∨
       (doc.storage_bucket = none ∧ doc.storage_key = none)) ∧
      (putOk = true → doc.storage_bucket = some cfg.MINIO_BUCKET ∧
        doc.storage_key = some (document_id ++ [0x2f] ++ filename)) ∧
      (putOk = false → doc.storage_bucket = none ∧ doc.storage_key = none) := by
  simp only [create_document, if_neg (Nat.not_lt.mpr hsz), hval, hproc]
  cases putOk <;> simp

/-- Witness for C2 with the object store failing (putOk false) on "hi". -/
theorem C2_storage_coordinates_witness :
    ∃ doc, (create_document defaultConfig (some (pyOfString "text/plain")) (Except.error [])
        false (pyOfString "id1") 0 (pyOfString "hi") (pyOfString "a.txt")
        (pyOfString "text/plain")).1 = PyOutcome.ok doc ∧
      doc.storage_bucket = none ∧ doc.storage_key = none ∧
      doc.file_path = save_file defaultConfig (pyOfString "id1") (pyOfString "a.txt") := by
  obtain ⟨doc, h1, h2, h3, h4, h5⟩ :=
    C2_storage_coordinates defaultConfig (some (pyOfString "text/plain")) (Except.error [])
      false (pyOfString "id1") 0 (pyOfString "hi") (pyOfString "a.txt") (pyOfString "text/plain")
      { word_count := some 1
        character_count := some 2
        content_preview := some (pyOfString "hi") }
      (by decide) rfl rfl
  exact ⟨doc, h1, (h5 rfl).1, (h5 rfl).2, h2⟩

theorem delete_one_count_pos (id : PyStr) (d : DocumentMetadata) :
    ∀ db : List DocumentMetadata, get_document db id = some d → (delete_one db id).2 = 1 := by
  intro db
  induction db with
  | nil => intro h; simp [get_document] at h
  | cons x rest ih =>
    intro h
    unfold delete_one
    by_cases hx : x.document_id == id
    · simp [hx]
    · simp only [hx, if_false, Bool.false_eq_true]
      apply ih
      unfold get_document at h ⊢
      rw [List.find?_cons] at h
      simp only [hx] at h
      exact h

theorem get_document_delete_one (id : PyStr) :
    ∀ db : List DocumentMetadata,
      (db.map (fun x => x.document_id)).Nodup →
      get_document (delete_one db id).1 id = none := by
  intro db
  induction db with
  | nil => intro _; rfl
  | cons x rest ih =>
    intro hnd
    rw [List.map_cons, List.nodup_cons] at hnd
    obtain ⟨hx, hrest⟩ := hnd
    unfold delete_one
    by_cases hxi : x.document_id == id
    · simp only [hxi, if_true]
      have hid : x.document_id = id := by simpa using hxi
      rw [get_document, List.find?_eq_none]
      intro y hy
      have hyne : y.document_id ≠ x.document_id := by
        intro hEq
        exact hx (hEq ▸ List.mem_map_of_mem (fun z => z.document_id) hy)
      simp [hid ▸ hyne]
    · simp only [hxi, Bool.false_eq_true, if_false]
      rw [get_document, List.find?_cons]
      simp only [hxi]
      exact ih hrest

/-- C5: deleting an unknown document_id returns false with the repository
unchanged and no cleanup effect; deleting a known id (under the repository's
uniqueness invariant on document_id) returns true and a subsequent lookup
returns none, for every outcome of the best-effort object-store and
local-file removals. -/
theorem C5_delete_document (db : List DocumentMetadata)
    (removeOk fileExists localOk : Bool) (id : PyStr) :
    (get_document db id = none →
      delete_document db removeOk fileExists localOk id = (false, db, [])) ∧
    (∀ d, get_document db id = some d →
      (db.map (fun x => x.document_id)).Nodup →
      (delete_document db removeOk fileExists localOk id).1 = true ∧
      get_document (delete_document db removeOk fileExists localOk id).2.1 id = none) := by
  constructor
  · intro h
    unfold delete_document
    rw [h]
  · intro d hfound hnd
    unfold delete_document
    rw [hfound]
    dsimp only
    constructor
    · rw [delete_one_count_pos id d db hfound]
      rfl
    · exact get_document_delete_one id db hnd

/-- Witness for C5 on a one-record repository. -/
theorem C5_delete_document_witness :
    get_document [sampleDoc] (pyOfString "id1") = some sampleDoc ∧
    (delete_document [sampleDoc] true true true (pyOfString "id1")).1 = true ∧
    get_document (delete_document [sampleDoc] true true true (pyOfString "id1")).2.1
      (pyOfString "id1") = none := by
  have h := (C5_delete_document [sampleDoc] true true true (pyOfString "id1")).2
    sampleDoc rfl (by decide)
  exact ⟨rfl, h.1, h.2⟩

theorem sortByUploadDesc_sorted (db : List DocumentMetadata) :
    List.Pairwise (fun a b => b.upload_timestamp ≤ a.upload_timestamp)
      (sortByUploadDesc db) := by
  unfold sortByUploadDesc
  have htrans : ∀ a b c : DocumentMetadata,
      decide (b.upload_timestamp ≤ a.upload_timestamp) = true →
      decide (c.upload_timestamp ≤ b.upload_timestamp) = true →
      decide (c.upload_timestamp ≤ a.upload_timestamp) = true := by
    intro a b c hab hbc
    simp only [decide_eq_true_eq] at *
    omega
  have htotal : ∀ a b : DocumentMetadata,
      (decide (b.upload_timestamp ≤ a.upload_timestamp) ||
       decide (a.upload_timestamp ≤ b.upload_timestamp)) = true := by
    intro a b
    simp [Bool.or_eq_true, decide_eq_true_eq]
    omega
  have h := @List.sorted_mergeSort DocumentMetadata
    (fun a b => decide (b.upload_timestamp ≤ a.upload_timestamp)) htrans htotal db
  exact h.imp (fun hab => by simpa using hab)

theorem total_pages_eq_ceil (t p : Nat) (hp : 0 < p) :
    total_pages t p = Nat.ceil ((t : ℚ) / (p : ℚ)) := by
  have hpQ : (0 : ℚ) < (p : ℚ) := by exact_mod_cast hp
  apply le_antisymm
  · unfold total_pages
    rw [← Nat.ceilDiv_eq_add_pred_div, ceilDiv_le_iff_le_mul hp]
    have h1 : (t : ℚ) / p ≤ (Nat.ceil ((t : ℚ) / p) : ℚ) := Nat.le_ceil _
    rw [div_le_iff₀ hpQ] at h1
    have h3 : t ≤ Nat.ceil ((t : ℚ) / p) * p := by exact_mod_cast h1
    exact le_of_le_of_eq h3 (Nat.mul_comm _ _)
  · rw [Nat.ceil_le]
    unfold total_pages
    have h4 : t ≤ p • (t ⌈/⌉ p) := le_smul_ceilDiv hp
    rw [smul_eq_mul, Nat.ceilDiv_eq_add_pred_div] at h4
    rw [div_le_iff₀ hpQ]
    calc (t : ℚ) ≤ ((p * ((t + p - 1) / p) : Nat) : ℚ) := by exact_mod_cast h4
      _ = (((t + p - 1) / p : Nat) : ℚ) * (p : ℚ) := by push_cast; ring

/-- C6: for page ≥ 1 and per_page in 1..100, the listing skips exactly
(page-1)*per_page records of the timestamp-descending order, returns at most
per_page records (exactly min(per_page, total - skip)), the page is ordered
by upload time descending, total equals the repository size, total_pages
equals the rational ceiling of total/per_page, and over 25 records with
per_page = 10 there are 3 pages and page 3 has exactly 5 records. -/
theorem C6_pagination (db : List DocumentMetadata) (page per_page : Nat)
    (h1 : 1 ≤ page) (h2 : 1 ≤ per_page) (h3 : per_page ≤ 100) :
    (list_documents db page per_page).2 = db.length ∧
    (list_documents db page per_page).1.length =
      min per_page (db.length - (page - 1) * per_page) ∧
    (∀ i, i < per_page →
      (list_documents db page per_page).1[i]? =
        (sortByUploadDesc db)[(page - 1) * per_page + i]?) ∧
    List.Pairwise (fun a b => b.upload_timestamp ≤ a.upload_timestamp)
      (list_documents db page per_page).1 ∧
    total_pages db.length per_page = Nat.ceil ((db.length : ℚ) / (per_page : ℚ)) ∧
    (db.length = 25 → per_page = 10 →
      total_pages db.length per_page = 3 ∧
      (page = 3 → (list_documents db page per_page).1.length = 5)) := by
  refine ⟨rfl, ?_, ?_, ?_, total_pages_eq_ceil _ _ h2, ?_⟩
  · simp [list_documents, List.length_take, List.length_drop,
      sortByUploadDesc, List.length_mergeSort]
  · intro i hi
    simp [list_documents, List.getElem?_take, hi, List.getElem?_drop]
  · have hs := sortByUploadDesc_sorted db
    have hsub : (list_documents db page per_page).1.Sublist (sortByUploadDesc db) :=
      (List.take_sublist _ _).trans (List.drop_sublist _ _)
    exact List.Pairwise.sublist hsub hs
  · intro h25 h10
    constructor
    · rw [h25, h10]
      rfl
    · intro hp3
      rw [hp3, h10]
      simp [list_documents, List.length_take, List.length_drop,
        sortByUploadDesc, List.length_mergeSort, h25]

/-- Witness for C6 over 25 records with per_page 10, page 3. -/
theorem C6_pagination_witness :
    (list_documents (List.replicate 25 sampleDoc) 3 10).2 = 25 ∧
    total_pages (List.replicate 25 sampleDoc).length 10 = 3 ∧
    (list_documents (List.replicate 25 sampleDoc) 3 10).1.length = 5 := by
  have h := C6_pagination (List.replicate 25 sampleDoc) 3 10 (by decide) (by decide) (by decide)
  refine ⟨by simpa using h.1, ?_, ?_⟩
  · exact (h.2.2.2.2.2 (by simp) rfl).1
  · exact (h.2.2.2.2.2 (by simp) rfl).2 rfl

end DocUploader
